import Mathlib

/-!
Verification development for the H2S interview-practice application.

The definitions below are a shallow embedding of the Python sources:
`src/utils/metrics_calculator.py` (score extraction and aggregation),
`src/services/ai_service.py` (retry wrapper and reply parsing),
`src/services/session_manager.py` (input validation),
`src/controllers/interview_controller.py` (response processing and the
all-zero fallback), and the monolithic `app.py` variant of the metrics
computation.  Python strings are modelled as `List Char`, Python floats
as `ℚ`, Python dicts (which preserve insertion order) as ordered
association lists `List (String × ℚ)`.
-/

namespace H2S

/-- Python's `\s` character class for `str` patterns and `str.strip`
(ASCII fragment): space, tab, newline, carriage return, vertical tab,
form feed. -/
def pySpace (c : Char) : Bool :=
  c = ' ' || c = '\t' || c = '\n' || c = '\r' || c = '\x0b' || c = '\x0c'

/-- Python's `\w` word-character class (ASCII fragment): letters, digits
and underscore.  Used for the `\b` word boundaries of the fallback token
scan in `extract_scores_from_text`. -/
def wordChar (c : Char) : Bool :=
  c.isAlphanum || c = '_'

/-- Case-insensitive literal match at the head of `hay`: `needle`
(already lowercase) equals the start of `hay` up to lowercasing.  This
models `re.IGNORECASE` matching of a literal. -/
def ciHead : List Char → List Char → Bool
  | [], _ => true
  | _ :: _, [] => false
  | n :: ns, h :: hs => (h.toLower = n) && ciHead ns hs

/-- Scan `hay` for the first case-insensitive occurrence of `needle`
(assumed lowercase) and return the suffix that starts right after that
occurrence; `none` when there is no occurrence. -/
def dropAfterOcc (needle : List Char) : List Char → Option (List Char)
  | [] => if needle = [] then some [] else none
  | h :: t =>
    if ciHead needle (h :: t) then some ((h :: t).drop needle.length)
    else dropAfterOcc needle t

/-- Numeric value of a decimal digit character. -/
def digitVal (c : Char) : ℕ := c.toNat - '0'.toNat

/-- Value of a digit run, as produced by `float` on the integer part of
a matched group. -/
def digitsNat (ds : List Char) : ℕ :=
  ds.foldl (fun a c => 10 * a + digitVal c) 0

/-- Value of a fractional digit run `fs`, i.e. `0.fs`. -/
def fracQ (fs : List Char) : ℚ :=
  (digitsNat fs : ℚ) / (10 ^ fs.length)

/-- Leading digit run of a string. -/
def takeDigs (s : List Char) : List Char := s.takeWhile Char.isDigit

/-- A string with its leading digit run removed. -/
def dropDigs (s : List Char) : List Char := s.dropWhile Char.isDigit

/-- Greedy match of `\d+(?:\.\d+)?` at the start of `s`: the numeric
value of the match and the remaining suffix, or `none` when `s` does
not start with a digit. -/
def parseNum (s : List Char) : Option (ℚ × List Char) :=
  let ds := takeDigs s
  if ds.isEmpty then none
  else
    match dropDigs s with
    | '.' :: r2 =>
      let fs := takeDigs r2
      if fs.isEmpty then some ((digitsNat ds : ℚ), dropDigs s)
      else some ((digitsNat ds : ℚ) + fracQ fs, dropDigs r2)
    | r1 => some ((digitsNat ds : ℚ), r1)

theorem dropDigs_length_le (s : List Char) : (dropDigs s).length ≤ s.length :=
  (List.dropWhile_sublist _).length_le

/-- `re.findall(r'\b(\d+(?:\.\d+)?)\b', content)` as used by the
fallback scan of `extract_scores_from_text`, with each matched group
converted by `float`.  `prevW` records whether the character just
before the current scan position is a word character (for the leading
`\b`).  When the trailing `\b` fails after an optional fractional part,
the regex engine backtracks to the integer-only match (whose following
character is then `'.'`, a non-word character, so the boundary holds);
shortening a greedy digit run can never help, because the dropped
character is a digit and the pattern then needs a boundary or `/`. -/
def findallGo (fuel : ℕ) (s : List Char) (prevW : Bool) : List ℚ :=
  match fuel, s with
  | 0, _ => []
  | _ + 1, [] => []
  | fuel + 1, c :: rest =>
    if c.isDigit && !prevW then
      let ds := c :: takeDigs rest
      match dropDigs rest with
      | '.' :: r2 =>
        let fs := takeDigs r2
        if fs.isEmpty then
          (digitsNat ds : ℚ) :: findallGo fuel ('.' :: r2) true
        else
          match dropDigs r2 with
          | [] => [(digitsNat ds : ℚ) + fracQ fs]
          | d :: r3 =>
            if wordChar d then (digitsNat ds : ℚ) :: findallGo fuel ('.' :: r2) true
            else ((digitsNat ds : ℚ) + fracQ fs) :: findallGo fuel (d :: r3) true
      | [] => [(digitsNat ds : ℚ)]
      | d :: r1 =>
        if wordChar d then findallGo fuel rest true
        else (digitsNat ds : ℚ) :: findallGo fuel (d :: r1) true
    else
      findallGo fuel rest (wordChar c)

/-- The full token scan, with fuel `s.length`.  The fuel is
sufficient: every recursive call of `findallGo` strictly shortens the
scanned string (each step consumes at least the current character), so
the fuel is never the binding constraint and the `fuel = 0` base case
coincides with the empty-string base case. -/
def findallNums (s : List Char) (prevW : Bool) : List ℚ :=
  findallGo s.length s prevW

/-- `re.search` for a pattern of the shape `r'<label>:\s*(\d+(?:\.\d+)?)'`
(the exact / bullet-prefixed labeled forms): the first case-insensitive
occurrence of the label that is followed by optional whitespace and a
number wins, and its number is the group value. -/
def searchLabelNum (label : List Char) : List Char → Option ℚ
  | [] => none
  | h :: t =>
    if ciHead label (h :: t) then
      match parseNum (((h :: t).drop label.length).dropWhile pySpace) with
      | some (v, _) => some v
      | none => searchLabelNum label t
    else searchLabelNum label t

/-- Try `(\d+(?:\.\d+)?)/10` exactly at the head of `s`. -/
def numSlash (s : List Char) : Option ℚ :=
  match parseNum s with
  | some (v, r) => if ciHead ['/', '1', '0'] r then some v else none
  | none => none

/-- Earliest position in `s` where `(\d+(?:\.\d+)?)/10` matches (the
lazy `.*?` expansion of the loose patterns). -/
def findNumSlash : List Char → Option ℚ
  | [] => none
  | h :: t =>
    match numSlash (h :: t) with
    | some v => some v
    | none => findNumSlash t

/-- `re.search` for `r'<label>.*?(\d+(?:\.\d+)?)/10'` with
`re.IGNORECASE | re.DOTALL`: the first occurrence of the label,
followed by the earliest subsequent `number/10`. -/
def searchLabelSlash (label : List Char) (s : List Char) : Option ℚ :=
  (dropAfterOcc label s).bind findNumSlash

/-- Value of the first `\d+(?:\.\d+)?` match anywhere in `s`. -/
def findNumAny (s : List Char) : Option ℚ :=
  (parseNum (s.dropWhile (fun c => !c.isDigit))).map (·.1)

/-- `re.search(r'Experience.*?Score.*?(\d+(?:\.\d+)?)', ...)`: first
occurrence of "experience", then the earliest "score" after it, then
the earliest number after that. -/
def searchExpScoreNum (s : List Char) : Option ℚ :=
  (dropAfterOcc "experience".data s).bind fun r1 =>
    (dropAfterOcc "score".data r1).bind findNumAny

/-- The per-category pattern lists of `extract_scores_from_text`, in
source order (dict insertion order is iteration order). -/
def categoryPatterns : List (String × List (List Char → Option ℚ)) :=
  [("knowledge_depth",
     [searchLabelNum "knowledge depth:".data,
      searchLabelNum "- knowledge depth:".data,
      searchLabelSlash "knowledge".data]),
   ("implementation",
     [searchLabelNum "implementation understanding:".data,
      searchLabelNum "- implementation understanding:".data,
      searchLabelSlash "implementation".data]),
   ("best_practices",
     [searchLabelNum "best practices awareness:".data,
      searchLabelNum "- best practices awareness:".data,
      searchLabelSlash "best practices".data]),
   ("clarity",
     [searchLabelNum "clarity:".data,
      searchLabelNum "- clarity:".data,
      searchLabelSlash "clarity".data]),
   ("structure",
     [searchLabelNum "structure:".data,
      searchLabelNum "- structure:".data,
      searchLabelSlash "structure".data]),
   ("professionalism",
     [searchLabelNum "professionalism:".data,
      searchLabelNum "- professionalism:".data,
      searchLabelSlash "professionalism".data]),
   ("experience_match",
     [searchLabelNum "score:".data,
      searchLabelSlash "alignment".data,
      searchExpScoreNum])]

/-- The `1 <= score <= 10` validity test of the extractor. -/
def inRange (v : ℚ) : Bool := decide (1 ≤ v) && decide (v ≤ 10)

/-- The inner pattern loop: the first pattern that matches and whose
group value is in `[1, 10]` wins; an out-of-range match falls through
to the next pattern. -/
def tryPatterns : List (List Char → Option ℚ) → List Char → Option ℚ
  | [], _ => none
  | pat :: rest, content =>
    match pat content with
    | some v => if inRange v then some v else tryPatterns rest content
    | none => tryPatterns rest content

/-- The labeled phase of `extract_scores_from_text`: one optional entry
per category, in category order. -/
def labeledScores (content : List Char) : List (String × ℚ) :=
  categoryPatterns.filterMap fun cp => (tryPatterns cp.2 content).map fun v => (cp.1, v)

/-- `valid_scores` of the fallback: all standalone numeric tokens of
the text whose value lies in `[1, 10]`, in order of appearance. -/
def validTokens (content : List Char) : List ℚ :=
  (findallNums content false).filter inRange

/-- Sub-score names in the positional order used by the fallback. -/
def fallbackKeys : List String :=
  ["knowledge_depth", "implementation", "best_practices",
   "clarity", "structure", "professionalism"]

/-- The sequence of `if len(valid_scores) >= k` assignments of the
fallback branch. -/
def fallbackAssign (valid : List ℚ) : List (String × ℚ) :=
  (if 1 ≤ valid.length then [("knowledge_depth", valid.getD 0 0)] else []) ++
  (if 2 ≤ valid.length then [("implementation", valid.getD 1 0)] else []) ++
  (if 3 ≤ valid.length then [("best_practices", valid.getD 2 0)] else []) ++
  (if 4 ≤ valid.length then [("clarity", valid.getD 3 0)] else []) ++
  (if 5 ≤ valid.length then [("structure", valid.getD 4 0)] else []) ++
  (if 6 ≤ valid.length then [("professionalism", valid.getD 5 0)] else [])

/-- `extract_scores_from_text` of `metrics_calculator.py`: the labeled
phase, with the positional fallback when it produced nothing. -/
def extract_scores_from_text (content : List Char) : List (String × ℚ) :=
  if (labeledScores content).isEmpty then fallbackAssign (validTokens content)
  else labeledScores content

/-! ### Aggregation (`calculate_role_specific_metrics`, modular variant) -/

/-- Python's `round(x, 1)` idealized over `ℚ`: the integer nearest to
`10 * x`, ties to the even integer, divided by `10`. -/
def roundHalfEven (q : ℚ) : ℤ :=
  if q - ⌊q⌋ < 1 / 2 then ⌊q⌋
  else if (1 : ℚ) / 2 < q - ⌊q⌋ then ⌊q⌋ + 1
  else if ⌊q⌋ % 2 = 0 then ⌊q⌋ else ⌊q⌋ + 1

/-- `round(q, 1)`. -/
def pyRound1 (q : ℚ) : ℚ := (roundHalfEven (10 * q) : ℚ) / 10

/-- A transcript entry: `role`, optional `type` tag (absent key modelled
as `none`), and text content. -/
structure PyMessage where
  role : String
  mtype : Option String
  content : List Char
deriving DecidableEq

/-- The filter `message.get("role") == "assistant" and
message.get("type") == "assessment"`. -/
def isAssessment (m : PyMessage) : Bool :=
  m.role == "assistant" && m.mtype == some "assessment"

/-- The extractor output for each assessment message, in history
order. -/
def assessmentScoreSets (msgs : List PyMessage) : List (List (String × ℚ)) :=
  msgs.filterMap fun m =>
    if isAssessment m then some (extract_scores_from_text m.content) else none

/-- Dict lookup `scores[k]` / `k in scores` on the ordered association
list. -/
def lookupScore (s : List (String × ℚ)) (k : String) : Option ℚ :=
  (s.find? fun p => p.1 == k).map (·.2)

/-- `sum(l) / len(l)`. -/
def meanQ (l : List ℚ) : ℚ := l.sum / l.length

/-- Keys of the technical component group. -/
def techKeys : List String := ["knowledge_depth", "implementation", "best_practices"]

/-- Keys of the communication component group. -/
def commKeys : List String := ["clarity", "structure", "professionalism"]

/-- Mean of the values present among `keys` in one score set; `none`
when none of the keys is present (then nothing is appended to the
group's list). -/
def groupMean (keys : List String) (s : List (String × ℚ)) : Option ℚ :=
  let comps := keys.filterMap (lookupScore s)
  if comps.isEmpty then none else some (meanQ comps)

/-- `technical_scores` collected over the whole history. -/
def technicalScores (msgs : List PyMessage) : List ℚ :=
  (assessmentScoreSets msgs).filterMap (groupMean techKeys)

/-- `communication_scores` collected over the whole history. -/
def communicationScores (msgs : List PyMessage) : List ℚ :=
  (assessmentScoreSets msgs).filterMap (groupMean commKeys)

/-- `experience_scores` collected over the whole history. -/
def experienceScores (msgs : List PyMessage) : List ℚ :=
  (assessmentScoreSets msgs).filterMap fun s => lookupScore s "experience_match"

/-- `avg_technical`: group mean, or the `6.0` fallback when the group
collected no samples. -/
def avgTechnical (msgs : List PyMessage) : ℚ :=
  if technicalScores msgs = [] then 6.0 else meanQ (technicalScores msgs)

/-- `avg_communication` with its `6.0` fallback. -/
def avgCommunication (msgs : List PyMessage) : ℚ :=
  if communicationScores msgs = [] then 6.0 else meanQ (communicationScores msgs)

/-- `avg_experience` with its `6.0` fallback. -/
def avgExperience (msgs : List PyMessage) : ℚ :=
  if experienceScores msgs = [] then 6.0 else meanQ (experienceScores msgs)

/-- `calculate_role_specific_metrics` of
`src/utils/metrics_calculator.py`.  When no scores at all were
collected the all-zero dict is returned; otherwise the three group
averages (with `6.0` substitution for empty groups) are mapped to the
display metrics and combined into the weighted overall score, all
rounded to one decimal. -/
def calculate_role_specific_metrics (role experience : String)
    (messages : List PyMessage) : List (String × ℚ) :=
  if technicalScores messages = [] ∧ communicationScores messages = [] ∧
      experienceScores messages = [] then
    [("domain_knowledge", 0), ("methodology_understanding", 0),
     ("practical_experience", 0), ("overall_score", 0)]
  else
    let domain_knowledge := avgTechnical messages
    let methodology_understanding := avgCommunication messages
    let practical_experience := avgExperience messages
    let overall_score :=
      domain_knowledge * 0.5 + practical_experience * 0.3 +
        methodology_understanding * 0.2
    [("domain_knowledge", pyRound1 domain_knowledge),
     ("methodology_understanding", pyRound1 methodology_understanding),
     ("practical_experience", pyRound1 practical_experience),
     ("overall_score", pyRound1 overall_score)]

/-! ### The monolithic `app.py` variant of the metrics computation -/

/-- Lowercasing a whole string, `str.lower` (ASCII fragment). -/
def lcList (s : List Char) : List Char := s.map Char.toLower

/-- The default keyword triple of `app.py` (domain, methodology,
practical), used for roles without a specific entry. -/
def appDefaultKeywords : List String × List String × List String :=
  (["technical", "skill", "knowledge", "understanding"],
   ["process", "method", "approach", "solution", "strategy"],
   ["experience", "project", "worked", "implemented", "handled"])

/-- `role_keywords.get(role, default_keywords)` of `app.py`. -/
def appRoleKeywords (role : String) : List String × List String × List String :=
  if role = "Software Engineer" then
    (["algorithm", "data structure", "programming", "code", "software",
      "development", "testing", "git"],
     ["agile", "scrum", "tdd", "ci/cd", "design pattern", "architecture", "review"],
     ["implemented", "developed", "built", "created", "managed", "debugged",
      "optimized"])
  else if role = "Data Scientist" then
    (["machine learning", "statistics", "data analysis", "model", "algorithm",
      "python", "r"],
     ["research", "analysis", "hypothesis", "validation", "cross-validation",
      "pipeline"],
     ["analyzed", "trained", "evaluated", "deployed", "improved", "experimented"])
  else if role = "Functional Tester" then
    (["test cases", "requirements", "user scenarios", "acceptance criteria",
      "defect", "bug", "regression", "test plan"],
     ["manual testing", "test design", "test execution", "test strategy",
      "risk analysis", "test reporting"],
     ["tested", "verified", "validated", "documented", "reported", "reproduced",
      "identified"])
  else appDefaultKeywords

/-- `(sum(1 for keyword in kws if keyword in content) / len(kws)) * 10`
on the lowercased content of one response. -/
def kwScore (kws : List String) (contentLower : List Char) : ℚ :=
  (((kws.filter fun k => (dropAfterOcc k.data contentLower).isSome).length : ℚ)
    / (kws.length : ℚ)) * 10

/-- `calculate_role_specific_metrics` of the monolithic `app.py`:
keyword-frequency scoring, averaged over all responses and rounded to
one decimal.  It returns only the three group fields — no
`overall_score` key — and all zeros on an empty response list. -/
def app_calculate_role_specific_metrics (role experience : String)
    (responses : List PyMessage) : List (String × ℚ) :=
  if responses = [] then
    [("domain_knowledge", 0), ("methodology_understanding", 0),
     ("practical_experience", 0)]
  else
    let kw := appRoleKeywords role
    let d := (responses.map fun m => kwScore kw.1 (lcList m.content)).sum
    let t := (responses.map fun m => kwScore kw.2.1 (lcList m.content)).sum
    let p := (responses.map fun m => kwScore kw.2.2 (lcList m.content)).sum
    let n : ℚ := (responses.length : ℚ)
    [("domain_knowledge", pyRound1 (d / n)),
     ("methodology_understanding", pyRound1 (t / n)),
     ("practical_experience", pyRound1 (p / n))]

/-! ### Retry wrapper (`retry_on_error` of `src/services/ai_service.py`) -/

/-- The short-circuit classification of the wrapper: case-insensitive
substring search for "quota" then "invalid" on the error message, each
mapped to the replacement message of the exception the wrapper raises
in that case; `none` for retryable errors. -/
def msgShortCircuit (e : String) : Option String :=
  if (dropAfterOcc "quota".data e.data).isSome then
    some "API quota exceeded. Please try again later."
  else if (dropAfterOcc "invalid".data e.data).isSome then
    some "Invalid API key. Please check your configuration."
  else none

/-- Observable outcome of one run of the wrapped call: the propagated
result (`Except.ok none` models the dead `return None` after the
loop), the number of attempts performed, and the list of back-off
sleep durations in order. -/
structure RetryRun (α : Type) where
  result : Except String (Option α)
  attempts : ℕ
  sleeps : List ℚ

/-- The `while retries < max_retries` loop of `retry_on_error`, with
`f k` the behavior of the wrapped call on attempt `k` (0-based) and
`rem` the structural counter `max_retries - retries`.  Before every
attempt except the first the wrapper sleeps `delay * 2 ^ (retries - 1)`.
A quota/invalid error raises its replacement exception at once; any
other error either re-raises (when this was the last attempt) or
retries. -/
def retryAux (f : ℕ → Except String α) (delay : ℚ) (maxRetries : ℕ) :
    ℕ → ℕ → RetryRun α
  | _, 0 => ⟨Except.ok none, 0, []⟩
  | retries, rem + 1 =>
    let sl : List ℚ := if 0 < retries then [delay * 2 ^ (retries - 1)] else []
    match f retries with
    | Except.ok a => ⟨Except.ok (some a), 1, sl⟩
    | Except.error e =>
      match msgShortCircuit e with
      | some m => ⟨Except.error m, 1, sl⟩
      | none =>
        if retries + 1 = maxRetries then ⟨Except.error e, 1, sl⟩
        else
          let r := retryAux f delay maxRetries (retries + 1) rem
          ⟨r.result, r.attempts + 1, sl ++ r.sleeps⟩

/-- `retry_on_error(max_retries, delay)` applied to a call behaving as
`f`. -/
def retry_on_error (f : ℕ → Except String α) (delay : ℚ) (maxRetries : ℕ) :
    RetryRun α :=
  retryAux f delay maxRetries 0 maxRetries

/-! ### Input validation (`SessionManager.validate_user_input`) -/

/-- `ERROR_MESSAGES['invalid_input']` from `src/utils/config.py`. -/
def invalidInputMessage : String :=
  "⚠️ Your response is too short. Please provide a more detailed answer."

/-- Python `str.strip()`: remove leading and trailing whitespace. -/
def pyStrip (s : List Char) : List Char :=
  ((s.dropWhile pySpace).reverse.dropWhile pySpace).reverse

/-- `SessionManager.validate_user_input`: reject empty input, then
input whose stripped form is shorter than 10 characters. -/
def validate_user_input (userInput : String) : Bool × Option String :=
  if userInput = "" then (false, some invalidInputMessage)
  else if (pyStrip userInput.data).length < 10 then (false, some invalidInputMessage)
  else (true, none)

/-! ### Reply parsing (`AIService.evaluate_response`) -/

/-- Case-sensitive literal match at the head of `hay`. -/
def csHead : List Char → List Char → Bool
  | [], _ => true
  | _ :: _, [] => false
  | n :: ns, h :: hs => (n = h) && csHead ns hs

/-- First case-sensitive occurrence of `sep`, returning the parts
before and after it — the two-element result of
`str.split(sep, 1)`; `none` when `sep` does not occur (Python then
returns the one-element list). -/
def splitOnce (sep : List Char) : List Char → Option (List Char × List Char)
  | [] => none
  | h :: t =>
    if csHead sep (h :: t) then some ([], (h :: t).drop sep.length)
    else
      match splitOnce sep t with
      | some (a, b) => some (h :: a, b)
      | none => none

/-- The parsing step of `AIService.evaluate_response` applied to the
LLM reply text: returns `(assessment, follow_up_question,
follow_up_expected)`. -/
def evaluateResponseParse (responseText : List Char) :
    List Char × List Char × List Char :=
  let followUpPart :=
    match splitOnce "Follow-up Question:".data responseText with
    | some p => p.2
    | none => "No follow-up provided.".data
  let assessmentPart :=
    match splitOnce "Follow-up Question:".data responseText with
    | some p => pyStrip p.1
    | none => pyStrip responseText
  match splitOnce "Expected Answer:".data followUpPart with
  | some q => (assessmentPart, pyStrip q.1, pyStrip q.2)
  | none => (assessmentPart, pyStrip followUpPart, "No model answer for follow-up.".data)

/-! ### Controller (`InterviewController.process_user_response`) -/

/-- The attributes an `InterviewAnalyzer` instance carries: the
instance attributes set in `__init__` and the single method the class
defines.  There is no `validate_input`. -/
def interviewAnalyzerAttrs : List String :=
  ["model", "performance_weights", "analyze_response"]

/-- Python attribute lookup on the analyzer: succeeds exactly for the
attributes above, otherwise raises `AttributeError`. -/
def analyzerHasAttr (name : String) : Bool :=
  interviewAnalyzerAttrs.contains name

/-- Externally observable effects of one `process_user_response`
call. -/
structure PipelineEffects where
  llmCalls : ℕ
  metricsStored : Bool
deriving DecidableEq

/-- `InterviewController.process_user_response`: the first statement of
its `try` block looks up `validate_input` on the analyzer.  If the
lookup fails, the `AttributeError` is caught by the surrounding
`except` handler, which returns `False` — with no LLM call made and no
metrics stored.  The remainder of the body (only reachable if the
attribute existed) is abstracted as `rest`. -/
def process_user_response (userInput : String)
    (rest : Bool × PipelineEffects) : Bool × PipelineEffects :=
  if analyzerHasAttr "validate_input" then rest
  else (false, ⟨0, false⟩)

/-- The progressive-default fallback of `process_user_response`
(lines 116–127): when the computed metrics are all zero, store
base-score-derived defaults instead, where
`base = min(6.0 + 0.5 * (total_questions + 1), 8.5)`. -/
def fallbackRoleMetrics (totalQuestions : ℕ) : List (String × ℚ) :=
  let question_count : ℚ := (totalQuestions : ℚ) + 1
  let base_score : ℚ := min (6.0 + question_count * 0.5) 8.5
  [("domain_knowledge", base_score),
   ("methodology_understanding", base_score - 0.2),
   ("practical_experience", base_score - 0.1),
   ("overall_score", base_score)]

/-- The metrics actually handed to `update_session_stats`: the
computed role metrics, unless every value is `0.0`, in which case the
progressive defaults. -/
def metricsToStore (roleMetrics : List (String × ℚ)) (totalQuestions : ℕ) :
    List (String × ℚ) :=
  if roleMetrics.all (fun p => decide (p.2 = 0)) then
    fallbackRoleMetrics totalQuestions
  else roleMetrics

/-- Number of non-whitespace characters of a string (used to state the
spec's length condition, which differs from the code's). -/
def nonWhitespaceCount (s : String) : ℕ :=
  (s.data.filter fun c => !pySpace c).length

/-! ## Helper lemmas -/

theorem inRange_iff (v : ℚ) : inRange v = true ↔ 1 ≤ v ∧ v ≤ 10 := by
  simp [inRange]

theorem tryPatterns_some_inRange {pats : List (List Char → Option ℚ)}
    {content : List Char} {v : ℚ} (h : tryPatterns pats content = some v) :
    inRange v = true := by
  induction pats with
  | nil => simp [tryPatterns] at h
  | cons pat rest ih =>
    cases hp : pat content with
    | none =>
      have h' : tryPatterns rest content = some v := by
        rw [tryPatterns, hp] at h; exact h
      exact ih h'
    | some w =>
      have h' : (if inRange w = true then some w else tryPatterns rest content) =
          some v := by
        rw [tryPatterns, hp] at h; exact h
      by_cases hw : inRange w
      · rw [if_pos hw] at h'; cases h'; exact hw
      · rw [if_neg hw] at h'; exact ih h'

theorem fallbackAssign_eq_zip (valid : List ℚ) :
    fallbackAssign valid = fallbackKeys.zip valid := by
  rcases valid with _ | ⟨a, _ | ⟨b, _ | ⟨c, _ | ⟨d, _ | ⟨e, _ | ⟨f, rest⟩⟩⟩⟩⟩⟩
  · rfl
  · rfl
  · rfl
  · rfl
  · rfl
  · rfl
  · show fallbackAssign (a :: b :: c :: d :: e :: f :: rest) = _
    rw [fallbackAssign]
    rw [if_pos (by simp only [List.length_cons]; omega),
        if_pos (by simp only [List.length_cons]; omega),
        if_pos (by simp only [List.length_cons]; omega),
        if_pos (by simp only [List.length_cons]; omega),
        if_pos (by simp only [List.length_cons]; omega),
        if_pos (by simp only [List.length_cons]; omega)]
    rfl

theorem mem_extract_inRange {content : List Char} {p : String × ℚ}
    (h : p ∈ extract_scores_from_text content) : 1 ≤ p.2 ∧ p.2 ≤ 10 := by
  rw [extract_scores_from_text] at h
  by_cases he : (labeledScores content).isEmpty
  · rw [if_pos he, fallbackAssign_eq_zip] at h
    have hv : p.2 ∈ validTokens content := by
      rcases p with ⟨k, v⟩
      exact (List.of_mem_zip h).2
    rw [validTokens, List.mem_filter] at hv
    exact (inRange_iff p.2).mp hv.2
  · rw [if_neg he, labeledScores, List.mem_filterMap] at h
    obtain ⟨cp, _, hcp⟩ := h
    cases htp : tryPatterns cp.2 content with
    | none => rw [htp] at hcp; cases hcp
    | some v =>
      rw [htp] at hcp
      cases hcp
      exact (inRange_iff _).mp (tryPatterns_some_inRange htp)

theorem assessmentScoreSets_all_nil {msgs : List PyMessage}
    (h : ∀ m ∈ msgs, isAssessment m = true → extract_scores_from_text m.content = []) :
    ∀ s ∈ assessmentScoreSets msgs, s = [] := by
  intro s hs
  rw [assessmentScoreSets, List.mem_filterMap] at hs
  obtain ⟨m, hm, hsm⟩ := hs
  by_cases ha : isAssessment m
  · rw [if_pos ha] at hsm
    cases hsm
    exact h m hm ha
  · rw [if_neg ha] at hsm
    cases hsm

theorem scoreLists_nil {msgs : List PyMessage}
    (h : ∀ m ∈ msgs, isAssessment m = true → extract_scores_from_text m.content = []) :
    technicalScores msgs = [] ∧ communicationScores msgs = [] ∧
      experienceScores msgs = [] := by
  have hs := assessmentScoreSets_all_nil h
  refine ⟨?_, ?_, ?_⟩
  · rw [technicalScores, List.filterMap_eq_nil]
    intro s hsm
    rw [hs s hsm]
    rfl
  · rw [communicationScores, List.filterMap_eq_nil]
    intro s hsm
    rw [hs s hsm]
    rfl
  · rw [experienceScores, List.filterMap_eq_nil]
    intro s hsm
    rw [hs s hsm]
    rfl

/-- An assessment message whose content yields no extracted scores. -/
def unparseableAssessment : PyMessage :=
  ⟨"assistant", some "assessment", "hello world with no numbers".data⟩

/-! ## Claims -/

/-- C1 (counterexample): over a history holding one assistant/assessment
message from whose content nothing is extracted,
`calculate_role_specific_metrics` returns the all-zero result — not the
claimed `6.0` metrics. -/
theorem claim1_counterexample :
    calculate_role_specific_metrics "Software Engineer" "0-2 years"
        [unparseableAssessment] =
      [("domain_knowledge", 0), ("methodology_understanding", 0),
       ("practical_experience", 0), ("overall_score", 0)] ∧
    calculate_role_specific_metrics "Software Engineer" "0-2 years"
        [unparseableAssessment] ≠
      [("domain_knowledge", 6), ("methodology_understanding", 6),
       ("practical_experience", 6), ("overall_score", 6)] := by
  constructor
  · decide
  · decide

/-- C1 (amended): for every history in which every assistant/assessment
message's content yields no extracted scores,
`calculate_role_specific_metrics` returns the all-zero RoleMetrics —
the same result as for an empty history; the `6.0` group fallback only
applies when some other group collected at least one sample. -/
theorem claim1_amended (role experience : String) (msgs : List PyMessage)
    (h : ∀ m ∈ msgs, isAssessment m = true → extract_scores_from_text m.content = []) :
    calculate_role_specific_metrics role experience msgs =
      [("domain_knowledge", 0), ("methodology_understanding", 0),
       ("practical_experience", 0), ("overall_score", 0)] := by
  obtain ⟨ht, hc, he⟩ := scoreLists_nil h
  rw [calculate_role_specific_metrics, if_pos ⟨ht, hc, he⟩]

/-- C1 (witness for the amended claim). -/
theorem claim1_amended_witness :
    calculate_role_specific_metrics "Software Engineer" "0-2 years"
        [unparseableAssessment] =
      [("domain_knowledge", 0), ("methodology_understanding", 0),
       ("practical_experience", 0), ("overall_score", 0)] :=
  claim1_amended "Software Engineer" "0-2 years" [unparseableAssessment] (by decide)

/-- An assessment message carrying one labeled sub-score. -/
def labeledAssessment : PyMessage :=
  ⟨"assistant", some "assessment", "Knowledge Depth: 8".data⟩

/-- C2 (counterexample): the monolithic `app.py` variant and the
modular variant disagree on a concrete input — the `app.py` version
scores by keyword counts and returns no `overall_score` key, while the
modular version parses the labeled sub-score. -/
theorem claim2_counterexample :
    app_calculate_role_specific_metrics "Product Manager" "0-2 years"
        [labeledAssessment] =
      [("domain_knowledge", 2.5), ("methodology_understanding", 0),
       ("practical_experience", 0)] ∧
    calculate_role_specific_metrics "Product Manager" "0-2 years"
        [labeledAssessment] =
      [("domain_knowledge", 8), ("methodology_understanding", 6),
       ("practical_experience", 6), ("overall_score", 7)] ∧
    app_calculate_role_specific_metrics "Product Manager" "0-2 years"
        [labeledAssessment] ≠
      calculate_role_specific_metrics "Product Manager" "0-2 years"
        [labeledAssessment] := by
  have hk1 : kwScore (appRoleKeywords "Product Manager").1
      (lcList labeledAssessment.content) = 2.5 := by
    rw [kwScore, show ((appRoleKeywords "Product Manager").1.filter fun k =>
        (dropAfterOcc k.data (lcList labeledAssessment.content)).isSome).length = 1
      from by decide]
    simp [appRoleKeywords, appDefaultKeywords]
    all_goals norm_num
  have hk2 : kwScore (appRoleKeywords "Product Manager").2.1
      (lcList labeledAssessment.content) = 0 := by
    rw [kwScore, show ((appRoleKeywords "Product Manager").2.1.filter fun k =>
        (dropAfterOcc k.data (lcList labeledAssessment.content)).isSome).length = 0
      from by decide]
    simp
  have hk3 : kwScore (appRoleKeywords "Product Manager").2.2
      (lcList labeledAssessment.content) = 0 := by
    rw [kwScore, show ((appRoleKeywords "Product Manager").2.2.filter fun k =>
        (dropAfterOcc k.data (lcList labeledAssessment.content)).isSome).length = 0
      from by decide]
    simp
  have happ : app_calculate_role_specific_metrics "Product Manager" "0-2 years"
      [labeledAssessment] =
      [("domain_knowledge", 2.5), ("methodology_understanding", 0),
       ("practical_experience", 0)] := by
    simp only [app_calculate_role_specific_metrics]
    rw [if_neg (by decide)]
    simp only [List.map_cons, List.map_nil, List.sum_cons, List.sum_nil,
      List.length_cons, List.length_nil, hk1, hk2, hk3]
    norm_num [pyRound1, roundHalfEven]
  have htech : technicalScores [labeledAssessment] = [8] := by
    rw [technicalScores, show assessmentScoreSets [labeledAssessment] =
        [[("knowledge_depth", 8)]] from by decide]
    simp [groupMean, lookupScore, techKeys, meanQ, List.filterMap]
  have havgt : avgTechnical [labeledAssessment] = 8 := by
    simp [avgTechnical, htech, meanQ]
  have havgc : avgCommunication [labeledAssessment] = 6 := by
    simp [avgCommunication, show communicationScores [labeledAssessment] = []
      from by decide]
    norm_num
  have havge : avgExperience [labeledAssessment] = 6 := by
    simp [avgExperience, show experienceScores [labeledAssessment] = []
      from by decide]
    norm_num
  have hcalc : calculate_role_specific_metrics "Product Manager" "0-2 years"
      [labeledAssessment] =
      [("domain_knowledge", 8), ("methodology_understanding", 6),
       ("practical_experience", 6), ("overall_score", 7)] := by
    simp only [calculate_role_specific_metrics]
    rw [if_neg (by simp [htech])]
    rw [havgt, havgc, havge]
    norm_num [pyRound1, roundHalfEven]
  refine ⟨happ, hcalc, fun h => ?_⟩
  rw [happ, hcalc] at h
  simpa using congrArg List.length h

/-- C2 (amended): the two variants are not behaviorally equivalent.
On every input the `app.py` variant returns exactly the three group
keys (no `overall_score`), the modular variant returns the three group
keys plus `overall_score`, and the two results always differ. -/
theorem claim2_amended (role experience : String) (msgs : List PyMessage) :
    (app_calculate_role_specific_metrics role experience msgs).map Prod.fst =
      ["domain_knowledge", "methodology_understanding", "practical_experience"] ∧
    (calculate_role_specific_metrics role experience msgs).map Prod.fst =
      ["domain_knowledge", "methodology_understanding", "practical_experience",
       "overall_score"] ∧
    app_calculate_role_specific_metrics role experience msgs ≠
      calculate_role_specific_metrics role experience msgs := by
  have h1 : (app_calculate_role_specific_metrics role experience msgs).map Prod.fst =
      ["domain_knowledge", "methodology_understanding", "practical_experience"] := by
    rw [app_calculate_role_specific_metrics]
    split
    · rfl
    · rfl
  have h2 : (calculate_role_specific_metrics role experience msgs).map Prod.fst =
      ["domain_knowledge", "methodology_understanding", "practical_experience",
       "overall_score"] := by
    rw [calculate_role_specific_metrics]
    split
    · rfl
    · rfl
  refine ⟨h1, h2, fun heq => ?_⟩
  have := congrArg (List.map Prod.fst) heq
  rw [h1, h2] at this
  exact absurd this (by decide)

/-- C3: when no labeled pattern produced an in-range match, the
extractor assigns the in-range standalone numeric tokens positionally
to the six fallback keys (stopping after six), never assigns
`experience_match`, and in particular binds exactly three tokens to
`knowledge_depth`, `implementation`, `best_practices` in order. -/
theorem claim3 (content : List Char) (h : labeledScores content = []) :
    extract_scores_from_text content = fallbackKeys.zip (validTokens content) ∧
    lookupScore (extract_scores_from_text content) "experience_match" = none ∧
    ∀ a b c : ℚ, validTokens content = [a, b, c] →
      extract_scores_from_text content =
        [("knowledge_depth", a), ("implementation", b), ("best_practices", c)] := by
  have he : (labeledScores content).isEmpty = true := by rw [h]; rfl
  have h1 : extract_scores_from_text content = fallbackKeys.zip (validTokens content) := by
    rw [extract_scores_from_text, if_pos he, fallbackAssign_eq_zip]
  refine ⟨h1, ?_, ?_⟩
  · rw [h1, lookupScore]
    have hn : (fallbackKeys.zip (validTokens content)).find?
        (fun p => p.1 == "experience_match") = none := by
      rw [List.find?_eq_none]
      rintro ⟨k, v⟩ hx
      have hk : k ∈ fallbackKeys := (List.of_mem_zip hx).1
      fin_cases hk <;> simp
    rw [hn]
    rfl
  · intro a b c hv
    rw [h1, hv]
    rfl

/-- C3 (witness): a text with exactly three unlabeled in-range numbers
and no labels. -/
theorem claim3_witness :
    extract_scores_from_text "3 5 7".data =
      [("knowledge_depth", 3), ("implementation", 5), ("best_practices", 7)] :=
  (claim3 "3 5 7".data (by decide)).2.2 3 5 7 (by decide)

/-- C4: whenever the non-zero branch is taken, the returned
`overall_score` is the weighted sum `0.5·domain + 0.3·experience +
0.2·communication` of the unrounded group averages, rounded to one
decimal; with averages 8, 7, 6 this gives `7.3`. -/
theorem claim4 (role experience : String) (msgs : List PyMessage)
    (h : ¬(technicalScores msgs = [] ∧ communicationScores msgs = [] ∧
        experienceScores msgs = [])) :
    lookupScore (calculate_role_specific_metrics role experience msgs)
        "overall_score" =
      some (pyRound1 (avgTechnical msgs * 0.5 + avgExperience msgs * 0.3 +
        avgCommunication msgs * 0.2)) ∧
    (avgTechnical msgs = 8 → avgExperience msgs = 7 → avgCommunication msgs = 6 →
      lookupScore (calculate_role_specific_metrics role experience msgs)
          "overall_score" = some 7.3) := by
  have h1 : lookupScore (calculate_role_specific_metrics role experience msgs)
      "overall_score" =
      some (pyRound1 (avgTechnical msgs * 0.5 + avgExperience msgs * 0.3 +
        avgCommunication msgs * 0.2)) := by
    simp only [calculate_role_specific_metrics]
    rw [if_neg h]
    rfl
  refine ⟨h1, fun h8 h7 h6 => ?_⟩
  rw [h1, h8, h7, h6]
  norm_num [pyRound1, roundHalfEven]

/-- An assessment carrying one technical, one communication and one
experience sub-score. -/
def threeScoreAssessment : PyMessage :=
  ⟨"assistant", some "assessment", "Knowledge Depth: 8\nClarity: 6\nScore: 7".data⟩

/-- C4 (witness). -/
theorem claim4_witness :
    lookupScore (calculate_role_specific_metrics "QA Lead" "2-5 years"
        [threeScoreAssessment]) "overall_score" = some 7.3 :=
  (claim4 "QA Lead" "2-5 years" [threeScoreAssessment] (by decide)).2
    (by simp [avgTechnical, meanQ,
          show technicalScores [threeScoreAssessment] = [8] from by
            rw [technicalScores, show assessmentScoreSets [threeScoreAssessment] =
                [[("knowledge_depth", 8), ("clarity", 6), ("experience_match", 7)]]
              from by decide]
            simp [groupMean, lookupScore, techKeys, meanQ, List.filterMap]])
    (by simp [avgExperience, meanQ,
          show experienceScores [threeScoreAssessment] = [7] from by
            rw [experienceScores, show assessmentScoreSets [threeScoreAssessment] =
                [[("knowledge_depth", 8), ("clarity", 6), ("experience_match", 7)]]
              from by decide]
            simp [lookupScore, List.filterMap]])
    (by simp [avgCommunication, meanQ,
          show communicationScores [threeScoreAssessment] = [6] from by
            rw [communicationScores, show assessmentScoreSets [threeScoreAssessment] =
                [[("knowledge_depth", 8), ("clarity", 6), ("experience_match", 7)]]
              from by decide]
            simp [groupMean, lookupScore, commKeys, meanQ, List.filterMap]])

/-- C5: every value the extractor returns lies in `[1, 10]`; a matched
value outside the range is skipped in favor of the next pattern in
priority order; and when no pattern yields an in-range value the
category is absent. -/
theorem claim5 (content : List Char) :
    (∀ p ∈ extract_scores_from_text content, 1 ≤ p.2 ∧ p.2 ≤ 10) ∧
    (∀ (pat : List Char → Option ℚ) (pats : List (List Char → Option ℚ)) (v : ℚ),
      pat content = some v → ¬(1 ≤ v ∧ v ≤ 10) →
      tryPatterns (pat :: pats) content = tryPatterns pats content) ∧
    (∀ pats : List (List Char → Option ℚ),
      (∀ pat ∈ pats, ∀ v, pat content = some v → ¬(1 ≤ v ∧ v ≤ 10)) →
      tryPatterns pats content = none) := by
  refine ⟨fun p hp => mem_extract_inRange hp, ?_, ?_⟩
  · intro pat pats v hv hnr
    have hr : inRange v = false := by
      rw [← Bool.not_eq_true, inRange_iff]
      exact hnr
    rw [tryPatterns, hv]
    simp [hr]
  · intro pats hall
    induction pats with
    | nil => rfl
    | cons pat rest ih =>
      have hrest := ih fun q hq => hall q (List.mem_cons_of_mem pat hq)
      cases hp : pat content with
      | none => rw [tryPatterns, hp, hrest]
      | some v =>
        have hr : inRange v = false := by
          rw [← Bool.not_eq_true, inRange_iff]
          exact hall pat (List.mem_cons_self pat rest) v hp
        rw [tryPatterns, hp]
        simp [hr, hrest]

/-- C5 (witness). -/
theorem claim5_witness : 1 ≤ (9 : ℚ) ∧ (9 : ℚ) ≤ 10 :=
  (claim5 "Clarity: 9".data).1 ("clarity", 9) (by decide)

/-- C6 (counterexample): an error whose message contains "quota" does
short-circuit retry, but what propagates is a replacement exception
with a fixed message, not the original exception. -/
theorem claim6_counterexample :
    (retry_on_error
        (fun _ => (Except.error "Quota exceeded for project X" : Except String Unit))
        2 3).attempts = 1 ∧
    (retry_on_error
        (fun _ => (Except.error "Quota exceeded for project X" : Except String Unit))
        2 3).result =
      Except.error "API quota exceeded. Please try again later." ∧
    "API quota exceeded. Please try again later." ≠
      "Quota exceeded for project X" := by
  refine ⟨rfl, rfl, by decide⟩

/-- C6 (amended): a quota/invalid error short-circuits — no further
attempts, no further sleep — and a replacement exception with the
wrapper's fixed message propagates immediately (rather than the
original exception); every other error is retried up to 3 attempts
with exponential backoff doubling from the base delay, and after the
third failure the last error itself is re-raised. -/
theorem claim6_amended {α : Type} (f : ℕ → Except String α) (d : ℚ) :
    (∀ k, k < 3 → ∀ e m,
      (∀ j, j < k → ∃ ej, f j = Except.error ej ∧ msgShortCircuit ej = none) →
      f k = Except.error e → msgShortCircuit e = some m →
      retry_on_error f d 3 =
        ⟨Except.error m, k + 1, (List.range k).map fun j => d * 2 ^ j⟩) ∧
    (∀ e0 e1 e2, f 0 = Except.error e0 → f 1 = Except.error e1 →
      f 2 = Except.error e2 → msgShortCircuit e0 = none →
      msgShortCircuit e1 = none → msgShortCircuit e2 = none →
      retry_on_error f d 3 = ⟨Except.error e2, 3, [d, d * 2]⟩) := by
  constructor
  · intro k hk e m hprev hfk hsc
    interval_cases k
    · simp [retry_on_error, retryAux, hfk, hsc]
    · obtain ⟨e0, hf0, hsc0⟩ := hprev 0 (by omega)
      simp [retry_on_error, retryAux, hf0, hsc0, hfk, hsc, List.range_succ]
    · obtain ⟨e0, hf0, hsc0⟩ := hprev 0 (by omega)
      obtain ⟨e1, hf1, hsc1⟩ := hprev 1 (by omega)
      simp [retry_on_error, retryAux, hf0, hsc0, hf1, hsc1, hfk, hsc,
        List.range_succ]
  · intro e0 e1 e2 hf0 hf1 hf2 h0 h1 h2
    simp [retry_on_error, retryAux, hf0, hf1, hf2, h0, h1, h2]

/-- C6 (witness for the amended claim). -/
theorem claim6_witness :
    retry_on_error (fun _ => (Except.error "quota hit" : Except String Unit)) 2 3 =
      ⟨Except.error "API quota exceeded. Please try again later.", 1, []⟩ := by
  have h := (claim6_amended
      (fun _ => (Except.error "quota hit" : Except String Unit)) 2).1 0
    (by decide) "quota hit" "API quota exceeded. Please try again later."
    (fun j hj => absurd hj (Nat.not_lt_zero j)) rfl (by decide)
  simpa using h

/-- C7 (counterexample): an answer with interior whitespace and only 6
non-whitespace characters passes validation, because the code measures
the length after stripping only leading/trailing whitespace — so the
"fewer than 10 non-whitespace characters" reading of the rule is
false. -/
theorem claim7_counterexample :
    validate_user_input "a b c d e f" = (true, none) ∧
    nonWhitespaceCount "a b c d e f" < 10 := by
  refine ⟨by decide, by decide⟩

/-- C7 (amended): validation rejects exactly the empty answer and any
answer whose form stripped of leading and trailing whitespace is
shorter than 10 characters (interior whitespace counts toward the
length); rejection carries the user-facing message, acceptance carries
none. -/
theorem claim7_amended (userInput : String) :
    validate_user_input userInput =
      if userInput = "" ∨ (pyStrip userInput.data).length < 10 then
        (false, some invalidInputMessage)
      else (true, none) := by
  by_cases h1 : userInput = ""
  · simp [validate_user_input, h1]
  · by_cases h2 : (pyStrip userInput.data).length < 10
    · simp [validate_user_input, h1, h2]
    · simp [validate_user_input, h1, h2]

/-- C8: the reply is split once on the first "Follow-up Question:",
the remainder once on "Expected Answer:", each part stripped; missing
markers degrade to the placeholder strings, and the concrete example
reply parses to the expected triple. -/
theorem claim8 (responseText : List Char) :
    (splitOnce "Follow-up Question:".data responseText = none →
      evaluateResponseParse responseText =
        (pyStrip responseText, "No follow-up provided.".data,
         "No model answer for follow-up.".data)) ∧
    (∀ a b, splitOnce "Follow-up Question:".data responseText = some (a, b) →
      splitOnce "Expected Answer:".data b = none →
      evaluateResponseParse responseText =
        (pyStrip a, pyStrip b, "No model answer for follow-up.".data)) ∧
    (∀ a b c d, splitOnce "Follow-up Question:".data responseText = some (a, b) →
      splitOnce "Expected Answer:".data b = some (c, d) →
      evaluateResponseParse responseText = (pyStrip a, pyStrip c, pyStrip d)) ∧
    (responseText =
        "Assessment body Follow-up Question:\nWhat is X?\nExpected Answer:\nY is the answer".data →
      evaluateResponseParse responseText =
        ("Assessment body".data, "What is X?".data, "Y is the answer".data)) := by
  refine ⟨?_, ?_, ?_, ?_⟩
  · intro h
    simp only [evaluateResponseParse, h]
    rfl
  · intro a b h1 h2
    simp only [evaluateResponseParse, h1, h2]
  · intro a b c d h1 h2
    simp only [evaluateResponseParse, h1, h2]
  · intro h
    subst h
    rfl

/-- C8 (witness): the spec's example reply, via the concrete-example
conjunct. -/
theorem claim8_witness :
    evaluateResponseParse
        "Assessment body Follow-up Question:\nWhat is X?\nExpected Answer:\nY is the answer".data =
      ("Assessment body".data, "What is X?".data, "Y is the answer".data) :=
  (claim8 _).2.2.2 rfl

/-- C9: `process_user_response` always returns `False` with no LLM
call and no stored metrics, whatever the rest of its body would have
done, because `InterviewAnalyzer` has no `validate_input` attribute and
the resulting `AttributeError` is caught by the handler. -/
theorem claim9 (userInput : String) (rest : Bool × PipelineEffects) :
    process_user_response userInput rest = (false, ⟨0, false⟩) ∧
    analyzerHasAttr "validate_input" = false :=
  ⟨rfl, rfl⟩

/-- C10: when the computed role metrics are all zero, the stored
metrics are the progressive defaults built from
`base = min(6.0 + 0.5·(total_questions + 1), 8.5)`, and hence an
all-zero record is never stored. -/
theorem claim10 (role experience : String) (msgs : List PyMessage)
    (totalQuestions : ℕ)
    (h : ∀ p ∈ calculate_role_specific_metrics role experience msgs, p.2 = 0) :
    metricsToStore (calculate_role_specific_metrics role experience msgs)
        totalQuestions = fallbackRoleMetrics totalQuestions ∧
    fallbackRoleMetrics totalQuestions =
      [("domain_knowledge", min (6.0 + ((totalQuestions : ℚ) + 1) * 0.5) 8.5),
       ("methodology_understanding",
         min (6.0 + ((totalQuestions : ℚ) + 1) * 0.5) 8.5 - 0.2),
       ("practical_experience",
         min (6.0 + ((totalQuestions : ℚ) + 1) * 0.5) 8.5 - 0.1),
       ("overall_score", min (6.0 + ((totalQuestions : ℚ) + 1) * 0.5) 8.5)] ∧
    ∀ p ∈ metricsToStore (calculate_role_specific_metrics role experience msgs)
        totalQuestions, p.2 ≠ 0 := by
  have hall : (calculate_role_specific_metrics role experience msgs).all
      (fun p => decide (p.2 = 0)) = true := by
    rw [List.all_eq_true]
    intro p hp
    exact decide_eq_true (h p hp)
  have h1 : metricsToStore (calculate_role_specific_metrics role experience msgs)
      totalQuestions = fallbackRoleMetrics totalQuestions := by
    simp only [metricsToStore]
    rw [if_pos hall]
  have h2 : fallbackRoleMetrics totalQuestions =
      [("domain_knowledge", min (6.0 + ((totalQuestions : ℚ) + 1) * 0.5) 8.5),
       ("methodology_understanding",
         min (6.0 + ((totalQuestions : ℚ) + 1) * 0.5) 8.5 - 0.2),
       ("practical_experience",
         min (6.0 + ((totalQuestions : ℚ) + 1) * 0.5) 8.5 - 0.1),
       ("overall_score", min (6.0 + ((totalQuestions : ℚ) + 1) * 0.5) 8.5)] := rfl
  have hbase : (6.5 : ℚ) ≤ min (6.0 + ((totalQuestions : ℚ) + 1) * 0.5) 8.5 := by
    rw [le_min_iff]
    constructor
    · have ht : (0 : ℚ) ≤ (totalQuestions : ℚ) := Nat.cast_nonneg _
      nlinarith
    · norm_num
  refine ⟨h1, h2, ?_⟩
  intro p hp
  rw [h1, h2] at hp
  simp only [List.mem_cons, List.not_mem_nil, or_false] at hp
  rcases hp with hp | hp | hp | hp <;> rw [hp] <;> intro h0 <;>
    simp only at h0 <;> linarith

/-- C10 (witness). -/
theorem claim10_witness :
    metricsToStore (calculate_role_specific_metrics "Software Engineer"
        "0-2 years" [unparseableAssessment]) 0 = fallbackRoleMetrics 0 :=
  (claim10 "Software Engineer" "0-2 years" [unparseableAssessment] 0 (by decide)).1

end H2S
